import Mathlib

/-!
Shallow embedding of the ffmpeg batch-conversion scripts in
`hagen-gloetter/video-conversion-ffmpeg`.

The repository holds several near-duplicate script variants; the claims cite
four of them, which we embed in separate namespaces:

* `HgBase`    — `hg_convert_movie_to_720p.py`
* `Evo`       — `hg_convert_movie_to_720p_evo.py`
* `Evo2`      — `hg_convert_movie_to_720p_evo2.py`
* `ProcessVar`— `hg_convert_movie_to_720p_process.py`
* `Cpu2`      — `ffmpeg_convert_to_720p_cpu2.py`

External effects (the child-process spawn, its exit status, the progress
stream it writes, `os.rename`) are modelled by an explicit environment record
fed to the embedded function: each field is the oracle answer the operating
system would give at the corresponding call site.  An exception raised by a
call site is modelled as `Option String` carrying `str(e)`; `os.rename` is
modelled as atomic (it either fully relocates the source file or raises and
leaves it in place), so the location of a job's source file is a single
value of type `FileLoc`.  Wall-clock durations in the returned tuples are
not modelled.
-/

/-- Location of a job's source file: still at its original path, or moved
into the `done` directory. -/
inductive FileLoc
  | original
  | done
deriving DecidableEq, Repr

instance {α β : Type} [DecidableEq α] [DecidableEq β] :
    DecidableEq (Except α β) := fun a b =>
  match a, b with
  | .ok x, .ok y =>
    if h : x = y then isTrue (by rw [h]) else isFalse (by simp [h])
  | .error x, .error y =>
    if h : x = y then isTrue (by rw [h]) else isFalse (by simp [h])
  | .ok _, .error _ => isFalse (by simp)
  | .error _, .ok _ => isFalse (by simp)

/-- One line read from the engine's stdout in the streaming variants.
`progress v` is a line containing the substring `out_time_ms` whose text
after `=` parses (`Except.ok`, a rational) or makes `float()` raise
(`Except.error`, carrying the ValueError message); `other` is any line
without the marker. -/
inductive Line
  | progress (val : Except String ℚ)
  | other
deriving DecidableEq, Repr

/-- A directory entry as seen by `os.listdir`: its name and whether
`os.path.isfile` holds for it. -/
structure DirEntry where
  name : String
  isFile : Bool
deriving DecidableEq, Repr

/-- Python's `str.lower`, character by character. -/
def pyLower (s : String) : String :=
  String.mk (s.data.map Char.toLower)

/-- Python's `str.endswith(suf)`. -/
def pyEndsWith (s suf : String) : Bool :=
  List.isPrefixOf suf.data.reverse s.data.reverse

/-- Python's `str.startswith(pre)`. -/
def pyStartsWith (s pre : String) : Bool :=
  List.isPrefixOf pre.data s.data

/-- The characters after the last `/` of a path (the whole path when it has
no `/`): the accumulator holds the current segment reversed and is reset at
each slash. -/
def lastSegment : List Char → List Char → List Char
  | seg, [] => seg.reverse
  | _, '/' :: rest => lastSegment [] rest
  | seg, c :: rest => lastSegment (c :: seg) rest

/-- `os.path.basename` for POSIX paths: the part after the last slash. -/
def pyBasename (p : String) : String :=
  String.mk (lastSegment [] p.data)

namespace HgBase

/-- Oracle for the external calls made by `make_720p` in
`hg_convert_movie_to_720p.py`: `spawnExc` is the exception (if any) raised
by `subprocess.run` itself, `exitCode` the engine's exit status when the
spawn worked, `renameExc` the exception (if any) raised by `os.rename`. -/
structure Env where
  spawnExc : Option String
  exitCode : Nat
  renameExc : Option String
deriving DecidableEq, Repr

/-- Result of one `make_720p` call: the returned bool and where the source
file ends up. -/
structure RunResult where
  ok : Bool
  loc : FileLoc
deriving DecidableEq, Repr

/-- `make_720p` of `hg_convert_movie_to_720p.py` (lines 28-56):
`subprocess.run(cmd, check=True)` raises `CalledProcessError` on a nonzero
exit, `os.rename` moves the original into `done/`; every exception is
caught and turns the result into `False`, leaving the file in place. -/
def make_720p (env : Env) : RunResult :=
  match env.spawnExc with
  | some _ => ⟨false, .original⟩
  | none =>
    if env.exitCode ≠ 0 then ⟨false, .original⟩
    else
      match env.renameExc with
      | some _ => ⟨false, .original⟩
      | none => ⟨true, .done⟩

/-- The fixed extension tuple of `main` (line 72). -/
def extensions : List String := [".mp4", ".wmv", ".mov", ".mkv"]

/-- The listdir filter of `main` (line 73):
`os.path.isfile(f) and f.lower().endswith(extensions)`. -/
def files_to_process (listing : List DirEntry) : List String :=
  (listing.filter (fun e =>
    e.isFile && extensions.any (fun ext => pyEndsWith (pyLower e.name) ext))).map
    (fun e => e.name)

/-- Observable outcome of one `main` run: the process exit status and which
files were submitted to the pool. -/
structure MainResult where
  exitCode : Nat
  attempted : List String
  numWorkers : Nat
deriving DecidableEq, Repr

/-- `main` of `hg_convert_movie_to_720p.py` (lines 58-101): if the
`ffmpeg -version` preflight fails it prints and `exit(1)`s before any
discovery; otherwise it lists files and, when any exist, spins up
`multiprocessing.cpu_count()` workers and submits every file. -/
def main (ffmpegOk : Bool) (cpuCount : Nat) (listing : List DirEntry) :
    MainResult :=
  if !ffmpegOk then ⟨1, [], 0⟩
  else
    let files := files_to_process listing
    if files.isEmpty then ⟨0, [], 0⟩
    else ⟨0, files, cpuCount⟩

/-- The destination path used by the success branch (line 47):
`os.path.join("done", os.path.basename(input_file))`. -/
def donePath (input_file : String) : String :=
  "done/" ++ pyBasename input_file

end HgBase

namespace Evo

/-- The streaming loop of `make_720p` in `hg_convert_movie_to_720p_evo.py`
(lines 86-93): a line containing `out_time_ms` stores
`float(line.split('=')[1]) / 1e7` into `progress_bars[thread_id]`, with no
clamping; a failing `float()` raises out of the loop.  Returns the values
stored before the loop ended and the pending exception message, if any. -/
def streamLoop : List Line → List ℚ × Option String
  | [] => ([], none)
  | Line.other :: rest => streamLoop rest
  | Line.progress (Except.error m) :: _ => ([], some m)
  | Line.progress (Except.ok v) :: rest =>
    let (ups, e) := streamLoop rest
    (v / 10000000 :: ups, e)

end Evo

namespace Evo2

/-- Oracle for one `make_720p` call in `hg_convert_movie_to_720p_evo2.py`:
the duration returned by `get_media_info` (its internal bare `except`
returns duration 0, so the probe never raises), the exception (if any) of
`subprocess.Popen`, the engine's stdout lines, its exit status, and the
exception (if any) of `os.rename`. -/
structure Env where
  probeDuration : ℚ
  spawnExc : Option String
  lines : List Line
  exitCode : Nat
  renameExc : Option String
deriving DecidableEq, Repr

/-- The returned tuple, keeping the fields the claims are about:
`ok f` embeds `(True, f, duration)` and `err f m` embeds
`(False, f, duration, m)` with `m = str(e)`. -/
inductive Result
  | ok (file : String)
  | err (file : String) (msg : String)
deriving DecidableEq, Repr

/-- First element of the returned tuple. -/
def Result.firstElem : Result → Bool
  | .ok _ => true
  | .err _ _ => false

/-- The streaming loop (lines 121-137): on a line containing `out_time_ms`,
`current_time = float(line.split('=')[1])/1000`, then
`progress = current_time / duration if duration > 0 else 0`, and
`min(1.0, max(0.0, progress))` is stored into the shared progress map; a
failing `float()` raises out of the loop.  Returns the stored values and
the pending exception message, if any. -/
def streamLoop (duration : ℚ) : List Line → List ℚ × Option String
  | [] => ([], none)
  | Line.other :: rest => streamLoop duration rest
  | Line.progress (Except.error m) :: _ => ([], some m)
  | Line.progress (Except.ok v) :: rest =>
    let current_time := v / 1000
    let progress := if duration > 0 then current_time / duration else 0
    let (ups, e) := streamLoop duration rest
    (min 1 (max 0 progress) :: ups, e)

/-- The message of `str(CalledProcessError(returncode, cmd))` raised at
line 140 for a nonzero exit. -/
def cpeMsg (code : Nat) : String :=
  "Command returned non-zero exit status " ++ toString code ++ "."

/-- Everything one `make_720p` call leaves behind: the returned tuple, the
progress values that were pushed to the aggregator, and where the source
file ends up. -/
structure RunResult where
  result : Result
  updates : List ℚ
  loc : FileLoc
deriving DecidableEq, Repr

/-- `make_720p` of `hg_convert_movie_to_720p_evo2.py` (lines 100-148):
probe, spawn, stream, raise `CalledProcessError` on nonzero exit, then
`os.rename` into `done/` and return the success tuple; the single outer
`except Exception` catches every exception and returns the failure tuple
carrying `str(e)`. -/
def make_720p (env : Env) (file : String) : RunResult :=
  match env.spawnExc with
  | some m => ⟨.err file m, [], .original⟩
  | none =>
    let (ups, perr) := streamLoop env.probeDuration env.lines
    match perr with
    | some m => ⟨.err file m, ups, .original⟩
    | none =>
      if env.exitCode ≠ 0 then ⟨.err file (cpeMsg env.exitCode), ups, .original⟩
      else
        match env.renameExc with
        | some m => ⟨.err file m, ups, .original⟩
        | none => ⟨.ok file, ups, .done⟩

/-- Observable outcome of one `main` run of the evo2 variant. -/
structure MainResult where
  exitCode : Nat
  attempted : List String
  numWorkers : Nat
deriving DecidableEq, Repr

/-- `main` of `hg_convert_movie_to_720p_evo2.py` (lines 178-232): preflight
`ffmpeg -version` with `exit(1)` on failure, the same listdir filter as the
base variant, then `num_workers = multiprocessing.cpu_count()` (line 197),
not clamped to the number of files. -/
def main (ffmpegOk : Bool) (cpuCount : Nat) (listing : List DirEntry) :
    MainResult :=
  if !ffmpegOk then ⟨1, [], 0⟩
  else
    let files := HgBase.files_to_process listing
    if files.isEmpty then ⟨0, [], 0⟩
    else ⟨0, files, cpuCount⟩

/-- `get_media_info` of `hg_convert_movie_to_720p_evo2.py` (lines 68-88)
seen through its probe oracle: the `ffprobe` call and the parsing of its
output sit inside the function's own bare `except`, which returns the
fallback `{'duration': 0, 'frames': 0}` — so an exception raised while
probing (`Except.error`, carrying `str(e)`) is swallowed and duration 0 is
returned; a successful probe (`Except.ok d`) returns the parsed duration
(itself 0 when `ffprobe` printed nothing). -/
def get_media_info (probe : Except String ℚ) : ℚ :=
  match probe with
  | Except.ok d => d
  | Except.error _ => 0

/-- One evo2 executor call including the probe step:
`media_info = get_media_info(input_file)` runs before the `try` of
`make_720p` (line 104), and `get_media_info` cannot raise, so the job
always proceeds into the outcome cascade with the probed (or fallen-back)
duration. -/
def run_job (probe : Except String ℚ) (spawnExc : Option String)
    (lines : List Line) (exitCode : Nat) (renameExc : Option String)
    (file : String) : RunResult :=
  make_720p ⟨get_media_info probe, spawnExc, lines, exitCode, renameExc⟩ file

end Evo2

namespace ProcessVar

/-- Phase under which a value was written into `progress_data[thread_id]`
in `hg_convert_movie_to_720p_process.py`: inside the `while process.poll()
is None` loop, or in the block after the loop (the process has exited). -/
inductive Phase
  | running
  | terminal
deriving DecidableEq, Repr

/-- One write of the `progress` field of a slot's entry. -/
structure Update where
  phase : Phase
  value : ℚ
deriving DecidableEq, Repr

/-- Oracle for one `make_720p` call of the process variant: the exception
(if any) of `subprocess.Popen`, the elapsed-time samples observed on the
iterations of the poll loop, the exit status, and the exception (if any) of
`os.rename`. -/
structure Env where
  spawnExc : Option String
  pollElapsed : List ℚ
  exitCode : Nat
  renameExc : Option String
deriving DecidableEq, Repr

/-- The returned tuple of the process variant's `make_720p`: `ok f` embeds
`(True, f, duration)`, `err f m` embeds `(False, f, duration, m)`. -/
inductive Result
  | ok (file : String)
  | err (file : String) (msg : String)
deriving DecidableEq, Repr

/-- First element of the returned tuple. -/
def Result.firstElem : Result → Bool
  | .ok _ => true
  | .err _ _ => false

/-- Everything one call leaves behind: the returned tuple, the sequence of
`progress` values written for the slot, and the source file's location. -/
structure RunResult where
  result : Result
  updates : List Update
  loc : FileLoc
deriving DecidableEq, Repr

/-- `make_720p` of `hg_convert_movie_to_720p_process.py` (lines 65-110):
while the process is running each loop iteration stores
`min(0.99, elapsed / 10)` with status `running`; after the loop the entry's
`progress` is set to `1.0`; on exit 0 the file is renamed into `done/` and
`(True, ...)` returned, on nonzero exit `(False, ..., "FFmpeg Error")`; the
outer `except Exception` catches any exception (it only sets the status
field, writing no progress value) and returns `(False, ..., str(e))`. -/
def make_720p (env : Env) (file : String) : RunResult :=
  match env.spawnExc with
  | some m => ⟨.err file m, [], .original⟩
  | none =>
    let runningUpdates :=
      env.pollElapsed.map (fun elapsed =>
        Update.mk .running (min (99 / 100) (elapsed / 10)))
    let ups := runningUpdates ++ [Update.mk .terminal 1]
    if env.exitCode = 0 then
      match env.renameExc with
      | some m => ⟨.err file m, ups, .original⟩
      | none => ⟨.ok file, ups, .done⟩
    else ⟨.err file "FFmpeg Error", ups, .original⟩

/-- Observable outcome of one `main` run of the process variant. -/
structure MainResult where
  exitCode : Nat
  attempted : List String
  numWorkers : Nat
deriving DecidableEq, Repr

/-- `main` of `hg_convert_movie_to_720p_process.py` (lines 133-164): the
same preflight and listdir filter as the base variant, then
`num_workers = min(multiprocessing.cpu_count(), total_files)` (line 154). -/
def main (ffmpegOk : Bool) (cpuCount : Nat) (listing : List DirEntry) :
    MainResult :=
  if !ffmpegOk then ⟨1, [], 0⟩
  else
    let files := HgBase.files_to_process listing
    if files.isEmpty then ⟨0, [], 0⟩
    else ⟨0, files, min cpuCount files.length⟩

end ProcessVar

namespace Cpu2

/-- The listdir filter of `process_videos` in
`ffmpeg_convert_to_720p_cpu2.py` (lines 37-41):
`f.lower().endswith('.mp4') and not f.startswith('.')` — note that it does
not check `os.path.isfile`. -/
def files_to_process (listing : List DirEntry) : List String :=
  (listing.filter (fun e =>
    pyEndsWith (pyLower e.name) ".mp4" && !(pyStartsWith e.name "."))).map
    (fun e => e.name)

/-- The move target of the success branch (lines 54-57):
`os.path.join(done_folder, os.path.basename(input_path))`. -/
def doneTarget (done_folder input_path : String) : String :=
  done_folder ++ "/" ++ pyBasename input_path

end Cpu2

/-- `s ++ a = s ++ b` forces `a = b` for strings; used to show that two
distinct basenames cannot land on the same `done/` path. -/
theorem string_append_left_cancel (s a b : String) (h : s ++ a = s ++ b) :
    a = b := by
  apply String.ext
  have hd := congrArg String.data h
  simp only [String.data_append] at hd
  exact List.append_cancel_left hd

/-- The returned tuple of the evo2 executor, written as a cascade over the
oracle: the first exception hit (spawn, progress parse, nonzero exit,
rename) becomes the failure tuple's message; with none, the success tuple. -/
theorem evo2_result_spec (env : Evo2.Env) (file : String) :
    (Evo2.make_720p env file).result =
      (match env.spawnExc with
       | some m => Evo2.Result.err file m
       | none =>
         match (Evo2.streamLoop env.probeDuration env.lines).2 with
         | some m => Evo2.Result.err file m
         | none =>
           if env.exitCode ≠ 0 then
             Evo2.Result.err file (Evo2.cpeMsg env.exitCode)
           else
             match env.renameExc with
             | some m => Evo2.Result.err file m
             | none => Evo2.Result.ok file) := by
  unfold Evo2.make_720p
  cases env.spawnExc with
  | some m => rfl
  | none =>
    cases h : Evo2.streamLoop env.probeDuration env.lines with
    | mk ups perr =>
      cases perr with
      | some m => simp [h]
      | none =>
        by_cases hz : env.exitCode ≠ 0 <;> cases env.renameExc <;> simp [h, hz]

/-- The source file's location after the evo2 executor: moved to `done`
exactly when no oracle step failed. -/
theorem evo2_loc_spec (env : Evo2.Env) (file : String) :
    (Evo2.make_720p env file).loc =
      (if env.spawnExc = none ∧
          (Evo2.streamLoop env.probeDuration env.lines).2 = none ∧
          env.exitCode = 0 ∧ env.renameExc = none
       then FileLoc.done else FileLoc.original) := by
  unfold Evo2.make_720p
  cases env.spawnExc with
  | some m => simp
  | none =>
    cases h : Evo2.streamLoop env.probeDuration env.lines with
    | mk ups perr =>
      cases perr with
      | some m => simp [h]
      | none =>
        by_cases hz : env.exitCode = 0 <;> cases env.renameExc <;> simp [h, hz]

/-- `make_720p` of the base variant as a cascade over its oracle. -/
theorem hgbase_run_spec (env : HgBase.Env) :
    HgBase.make_720p env =
      (match env.spawnExc with
       | some _ => ⟨false, FileLoc.original⟩
       | none =>
         if env.exitCode ≠ 0 then ⟨false, FileLoc.original⟩
         else
           match env.renameExc with
           | some _ => ⟨false, FileLoc.original⟩
           | none => ⟨true, FileLoc.done⟩) := rfl

/-- A stream with no unparseable `out_time_ms` line makes the evo2
streaming loop finish without a pending exception. -/
theorem evo2_streamLoop_no_error (d : ℚ) (lines : List Line)
    (h : ∀ m, Line.progress (Except.error m) ∉ lines) :
    (Evo2.streamLoop d lines).2 = none := by
  induction lines with
  | nil => rfl
  | cons l rest ih =>
    have hrest : ∀ m, Line.progress (Except.error m) ∉ rest := by
      intro m hm
      exact h m (List.mem_cons_of_mem _ hm)
    cases l with
    | other => simpa [Evo2.streamLoop] using ih hrest
    | progress v =>
      cases v with
      | error m => exact absurd (List.mem_cons_self _ _) (fun hm => h m hm)
      | ok q =>
        have := ih hrest
        simp [Evo2.streamLoop]
        cases hrec : Evo2.streamLoop d rest with
        | mk ups perr => simp [hrec] at this ⊢; exact this

/-- The returned tuple of the process-variant executor as a cascade over
its oracle. -/
theorem processvar_result_spec (env : ProcessVar.Env) (file : String) :
    (ProcessVar.make_720p env file).result =
      (match env.spawnExc with
       | some m => ProcessVar.Result.err file m
       | none =>
         if env.exitCode = 0 then
           match env.renameExc with
           | some m => ProcessVar.Result.err file m
           | none => ProcessVar.Result.ok file
         else ProcessVar.Result.err file "FFmpeg Error") := by
  unfold ProcessVar.make_720p
  cases env.spawnExc with
  | some m => rfl
  | none =>
    by_cases hz : env.exitCode = 0 <;> cases env.renameExc <;> simp [hz]

/-- The progress writes of the process-variant executor: nothing when the
spawn raised, otherwise one clamped running write per poll-loop iteration
followed by the single terminal write of `1.0`. -/
theorem processvar_updates_spec (env : ProcessVar.Env) (file : String) :
    (ProcessVar.make_720p env file).updates =
      (match env.spawnExc with
       | some _ => []
       | none =>
         env.pollElapsed.map (fun elapsed =>
           ProcessVar.Update.mk .running (min (99 / 100) (elapsed / 10))) ++
           [ProcessVar.Update.mk .terminal 1]) := by
  unfold ProcessVar.make_720p
  cases env.spawnExc with
  | some m => rfl
  | none =>
    by_cases hz : env.exitCode = 0 <;> cases env.renameExc <;> simp [hz]

/-- C1: as stated, the claim fails on the code: an engine exit of 0 whose
subsequent `os.rename` into `done/` raises leaves the source file at its
original location (and the job reported failed), so "exits 0 implies the
file is in done" is false.  Concrete input: spawn fine, exit status 0,
rename raising a permission error. -/
theorem c1_counterexample :
    (HgBase.make_720p
        ⟨none, 0, some "[Errno 13] Permission denied: 'done/a.mp4'"⟩).loc =
      FileLoc.original ∧
    FileLoc.original ≠ FileLoc.done := by
  constructor
  · rfl
  · decide

/-- C1 (amended): in the base and evo2 executors, a job whose engine
process exits 0 and whose run raised no exception (spawn, progress parse,
rename) has its source file in `done` and no longer at its original
location; a job whose engine process exits nonzero leaves the source file
exactly at its original location. -/
theorem c1_amended_file_lifecycle (eb : HgBase.Env) (e2 : Evo2.Env)
    (f : String) :
    ((eb.spawnExc = none ∧ eb.exitCode = 0 ∧ eb.renameExc = none) →
      (HgBase.make_720p eb).loc = FileLoc.done) ∧
    (eb.exitCode ≠ 0 → (HgBase.make_720p eb).loc = FileLoc.original) ∧
    ((e2.spawnExc = none ∧
        (Evo2.streamLoop e2.probeDuration e2.lines).2 = none ∧
        e2.exitCode = 0 ∧ e2.renameExc = none) →
      (Evo2.make_720p e2 f).loc = FileLoc.done) ∧
    (e2.exitCode ≠ 0 → (Evo2.make_720p e2 f).loc = FileLoc.original) := by
  refine ⟨?_, ?_, ?_, ?_⟩
  · rintro ⟨h1, h2, h3⟩
    rw [hgbase_run_spec, h1, h3]
    simp [h2]
  · intro hz
    rw [hgbase_run_spec]
    cases eb.spawnExc with
    | some m => rfl
    | none => cases eb.renameExc <;> simp [hz]
  · rintro ⟨h1, h2, h3, h4⟩
    rw [evo2_loc_spec]
    simp [h1, h2, h3, h4]
  · intro hz
    rw [evo2_loc_spec]
    simp [hz]

theorem c1_witness :
    (HgBase.make_720p ⟨none, 0, none⟩).loc = FileLoc.done ∧
    (Evo2.make_720p ⟨10, none, [], 1, none⟩ "a.mp4").loc = FileLoc.original := by
  constructor
  · exact (c1_amended_file_lifecycle ⟨none, 0, none⟩ ⟨10, none, [], 1, none⟩
      "a.mp4").1 ⟨rfl, rfl, rfl⟩
  · exact (c1_amended_file_lifecycle ⟨none, 0, none⟩ ⟨10, none, [], 1, none⟩
      "a.mp4").2.2.2 (by decide)

/-- C2: as stated, the claim fails on the code: when the engine exits 0 and
the move into `done/` then raises, the single `except Exception` of
`make_720p` catches the rename exception and returns the failure tuple, so
the Outcome is a Failure, not a Success carrying a warning.  Concrete
input: evo2 executor, silent stream, exit status 0, rename raising. -/
theorem c2_counterexample :
    (Evo2.make_720p
        ⟨0, none, [], 0,
          some "[Errno 13] Permission denied: 'done/a.mp4'"⟩ "a.mp4").result =
      Evo2.Result.err "a.mp4" "[Errno 13] Permission denied: 'done/a.mp4'" ∧
    Evo2.Result.firstElem
        (Evo2.Result.err "a.mp4" "[Errno 13] Permission denied: 'done/a.mp4'") =
      false := ⟨rfl, rfl⟩

/-- C2 (amended): a failure of the post-success move is folded into the
ordinary per-job Failure: with engine exit 0 and `os.rename` raising, the
base variant returns `False` and the evo2 variant returns the failure
tuple carrying the rename exception's message, the source file staying at
its original location; no Success-with-warning outcome exists. -/
theorem c2_amended_move_failure_is_failure (eb : HgBase.Env) (e2 : Evo2.Env)
    (f m : String) :
    ((eb.spawnExc = none ∧ eb.exitCode = 0 ∧ eb.renameExc = some m) →
      HgBase.make_720p eb = ⟨false, FileLoc.original⟩) ∧
    ((e2.spawnExc = none ∧
        (Evo2.streamLoop e2.probeDuration e2.lines).2 = none ∧
        e2.exitCode = 0 ∧ e2.renameExc = some m) →
      (Evo2.make_720p e2 f).result = Evo2.Result.err f m ∧
      (Evo2.make_720p e2 f).loc = FileLoc.original) := by
  constructor
  · rintro ⟨h1, h2, h3⟩
    rw [hgbase_run_spec, h1, h3]
    simp [h2]
  · rintro ⟨h1, h2, h3, h4⟩
    refine ⟨?_, ?_⟩
    · rw [evo2_result_spec, h1, h2, h3, h4]
      simp
    · rw [evo2_loc_spec]
      simp [h4]

theorem c2_witness :
    HgBase.make_720p ⟨none, 0, some "boom"⟩ = ⟨false, FileLoc.original⟩ ∧
    (Evo2.make_720p ⟨0, none, [], 0, some "boom"⟩ "a.mp4").result =
      Evo2.Result.err "a.mp4" "boom" := by
  constructor
  · exact (c2_amended_move_failure_is_failure ⟨none, 0, some "boom"⟩
      ⟨0, none, [], 0, some "boom"⟩ "a.mp4" "boom").1 ⟨rfl, rfl, rfl⟩
  · exact ((c2_amended_move_failure_is_failure ⟨none, 0, some "boom"⟩
      ⟨0, none, [], 0, some "boom"⟩ "a.mp4" "boom").2 ⟨rfl, rfl, rfl, rfl⟩).1

/-- C3: as stated, the claim fails on the code: with the engine executable
absent, the `ffmpeg -version` preflight of `main` fails and the script
calls `exit(1)` before any discovery, so the process exit status is 1 (not
0) and no job is enumerated or attempted.  Concrete input: one eligible
file in the directory, ffmpeg unavailable. -/
theorem c3_counterexample :
    (HgBase.main false 4 [⟨"a.mp4", true⟩]).exitCode ≠ 0 ∧
    (HgBase.main false 4 [⟨"a.mp4", true⟩]).attempted = [] := by
  constructor
  · decide
  · rfl

/-- C3 (amended): when the engine executable is absent, each variant's
preflight check aborts the whole run with process exit status 1 before
discovery: no job is enumerated or attempted (so every source file is
untouched) and no worker is started. -/
theorem c3_amended_preflight_aborts (cpu : Nat) (listing : List DirEntry) :
    HgBase.main false cpu listing = ⟨1, [], 0⟩ ∧
    Evo2.main false cpu listing = ⟨1, [], 0⟩ ∧
    ProcessVar.main false cpu listing = ⟨1, [], 0⟩ := by
  refine ⟨rfl, rfl, rfl⟩

/-- C4: as stated, the claim fails on the code: a progress line whose
`out_time_ms` value is not a number makes `float()` raise inside the
streaming loop; the outer `except Exception` converts the job into a
Failure even though the engine process exits 0, so the Outcome is not
determined solely by the exit status.  Concrete input: stream consisting
of `out_time_ms=N/A`, exit status 0. -/
theorem c4_counterexample :
    (Evo2.make_720p
        ⟨10, none,
          [Line.progress (Except.error "could not convert string to float: 'N/A'")],
          0, none⟩ "a.mp4").result =
      Evo2.Result.err "a.mp4" "could not convert string to float: 'N/A'" ∧
    (Evo2.make_720p
        ⟨10, none,
          [Line.progress (Except.error "could not convert string to float: 'N/A'")],
          0, none⟩ "a.mp4").result ≠
      Evo2.Result.ok "a.mp4" := by
  constructor
  · rfl
  · decide

/-- C4 (amended): a progress line without the `out_time_ms` marker, or with
a parseable value, never changes the Outcome — over any such stream the
evo2 executor returns exactly what it returns on a fully silent stream, so
the Outcome is determined by spawn, exit status and rename alone; but a
line whose `out_time_ms` value is unparseable raises, and the exception is
caught and folded into a Failure tuple carrying its message (the run does
not crash). -/
theorem c4_amended_parse_tolerance (e2 : Evo2.Env) (f : String) :
    ((∀ m, Line.progress (Except.error m) ∉ e2.lines) →
      (Evo2.make_720p e2 f).result =
        (Evo2.make_720p
          ⟨e2.probeDuration, e2.spawnExc, [], e2.exitCode, e2.renameExc⟩
          f).result) ∧
    (∀ m, e2.spawnExc = none →
      (Evo2.streamLoop e2.probeDuration e2.lines).2 = some m →
      (Evo2.make_720p e2 f).result = Evo2.Result.err f m) := by
  constructor
  · intro h
    have hnone := evo2_streamLoop_no_error e2.probeDuration e2.lines h
    rw [evo2_result_spec, evo2_result_spec]
    simp only [hnone]
    rfl
  · intro m h1 h2
    rw [evo2_result_spec, h1, h2]

theorem c4_witness :
    (Evo2.make_720p ⟨10, none, [Line.other, Line.progress (Except.ok 5000)],
        0, none⟩ "a.mp4").result =
      (Evo2.make_720p ⟨10, none, [], 0, none⟩ "a.mp4").result := by
  exact (c4_amended_parse_tolerance
    ⟨10, none, [Line.other, Line.progress (Except.ok 5000)], 0, none⟩
    "a.mp4").1 (by intro m; simp)

/-- The evo2 streaming loop on a parseable `out_time_ms` line: the clamped
fraction is prepended to the later stores. -/
theorem evo2_streamLoop_cons_ok (d v : ℚ) (rest : List Line) :
    Evo2.streamLoop d (Line.progress (Except.ok v) :: rest) =
      (min 1 (max 0 (if d > 0 then (v / 1000) / d else 0)) ::
        (Evo2.streamLoop d rest).1,
       (Evo2.streamLoop d rest).2) := by
  simp only [Evo2.streamLoop]

/-- C5: as stated, the claim fails on the code: the evo variant (one of the
two cited code sites) stores `float(...) / 1e7` into the progress map with
no clamping, so an engine-reported `out_time_ms` of `20000000` stores the
fraction 2, which is not within [0, 1]. -/
theorem c5_counterexample :
    (Evo.streamLoop [Line.progress (Except.ok 20000000)]).1 = [2] ∧
    ¬ ((2 : ℚ) ≤ 1) := by
  constructor
  · norm_num [Evo.streamLoop]
  · norm_num

/-- C5 (amended): in the evo2 variant every fraction pushed to the progress
aggregator is clamped into [0, 1] before being stored; the evo variant
stores the raw `out_time_ms / 1e7` value unclamped, which can exceed 1. -/
theorem c5_amended_evo2_clamped (d : ℚ) (lines : List Line) (u : ℚ)
    (hu : u ∈ (Evo2.streamLoop d lines).1) : 0 ≤ u ∧ u ≤ 1 := by
  induction lines with
  | nil => simp [Evo2.streamLoop] at hu
  | cons l rest ih =>
    cases l with
    | other =>
      exact ih (by simpa [Evo2.streamLoop] using hu)
    | progress v =>
      cases v with
      | error m => simp [Evo2.streamLoop] at hu
      | ok q =>
        rw [evo2_streamLoop_cons_ok] at hu
        rcases List.mem_cons.mp hu with h | h
        · subst h
          constructor
          · exact le_min (by norm_num) (le_max_left 0 _)
          · exact min_le_left _ _
        · exact ih h

theorem c5_witness :
    (0 : ℚ) ≤ min 1 (max 0 (if (10 : ℚ) > 0 then (5000 / 1000) / 10 else 0)) ∧
    min 1 (max 0 (if (10 : ℚ) > 0 then ((5000 : ℚ) / 1000) / 10 else 0)) ≤ 1 := by
  exact c5_amended_evo2_clamped 10 [Line.progress (Except.ok 5000)] _
    (by rw [evo2_streamLoop_cons_ok]; exact List.mem_cons_self _ _)

/-- C6: as stated, the claim fails on the code: the evo2 variant (one of
the two cited code sites) sets `num_workers = multiprocessing.cpu_count()`
with no clamping to the job count.  Concrete input: 8 processing units and
a single discovered job give a pool of 8 workers, not min(8, 1) = 1. -/
theorem c6_counterexample :
    (Evo2.main true 8 [⟨"a.mp4", true⟩]).attempted.length = 1 ∧
    (Evo2.main true 8 [⟨"a.mp4", true⟩]).numWorkers = 8 ∧
    (Evo2.main true 8 [⟨"a.mp4", true⟩]).numWorkers ≠ min 8 1 := by
  refine ⟨rfl, rfl, by decide⟩

/-- C6 (amended): only the process variant clamps the pool to
`min(multiprocessing.cpu_count(), total_files)`; the evo2 variant always
spins up `cpu_count()` workers, even when fewer jobs were discovered. -/
theorem c6_amended_clamp_only_in_process_variant (cpu : Nat)
    (listing : List DirEntry) :
    HgBase.files_to_process listing ≠ [] →
      (ProcessVar.main true cpu listing).numWorkers =
        min cpu (HgBase.files_to_process listing).length ∧
      (Evo2.main true cpu listing).numWorkers = cpu := by
  intro h
  have h' : (HgBase.files_to_process listing).isEmpty = false := by
    simpa [List.isEmpty_iff] using h
  constructor
  · simp [ProcessVar.main, h']
  · simp [Evo2.main, h']

theorem c6_witness :
    (ProcessVar.main true 8 [⟨"a.mp4", true⟩]).numWorkers =
      min 8 (HgBase.files_to_process [⟨"a.mp4", true⟩]).length ∧
    (Evo2.main true 8 [⟨"a.mp4", true⟩]).numWorkers = 8 := by
  exact c6_amended_clamp_only_in_process_variant 8 [⟨"a.mp4", true⟩]
    (by decide)

/-- C7: as stated, the claim fails on the code: the cited listdir filter of
`hg_convert_movie_to_720p.py` checks only `os.path.isfile` and the
lowercased extension, so a hidden file `.hidden.mp4` — whose name begins
with a dot — is returned by discovery. -/
theorem c7_counterexample :
    HgBase.files_to_process [⟨".hidden.mp4", true⟩] = [".hidden.mp4"] ∧
    pyStartsWith ".hidden.mp4" "." = true := by
  refine ⟨by decide, by decide⟩

/-- C7 (amended): discovery in the hg variants returns exactly the regular
files directly under the root whose lowercased name ends with one of
`.mp4`, `.wmv`, `.mov`, `.mkv` — hidden dot-files are not excluded; the
cpu2 variant returns exactly the entries whose lowercased name ends with
`.mp4` and does not start with a dot — without requiring the entry to be a
regular file. -/
theorem c7_amended_discovery_characterization (listing : List DirEntry)
    (f : String) :
    (f ∈ HgBase.files_to_process listing ↔
      ∃ e, e ∈ listing ∧ e.name = f ∧ e.isFile = true ∧
        HgBase.extensions.any (fun ext => pyEndsWith (pyLower f) ext) = true) ∧
    (f ∈ Cpu2.files_to_process listing ↔
      ∃ e, e ∈ listing ∧ e.name = f ∧
        (pyEndsWith (pyLower f) ".mp4" && !(pyStartsWith f ".")) = true) := by
  constructor
  · simp only [HgBase.files_to_process, List.mem_map, List.mem_filter]
    constructor
    · rintro ⟨e, ⟨he, hp⟩, rfl⟩
      simp only [Bool.and_eq_true] at hp
      exact ⟨e, he, rfl, hp.1, hp.2⟩
    · rintro ⟨e, he, rfl, hf, hext⟩
      exact ⟨e, ⟨he, by simp [hf, hext]⟩, rfl⟩
  · simp only [Cpu2.files_to_process, List.mem_map, List.mem_filter]
    constructor
    · rintro ⟨e, ⟨he, hp⟩, rfl⟩
      exact ⟨e, he, rfl, hp⟩
    · rintro ⟨e, he, rfl, hp⟩
      exact ⟨e, ⟨he, hp⟩, rfl⟩

theorem c7_witness :
    ".hidden.mp4" ∈ HgBase.files_to_process [⟨".hidden.mp4", true⟩] ∧
    "B.MP4" ∈ Cpu2.files_to_process [⟨"B.MP4", true⟩] := by
  constructor
  · exact (c7_amended_discovery_characterization [⟨".hidden.mp4", true⟩]
      ".hidden.mp4").1.mpr ⟨⟨".hidden.mp4", true⟩, by simp, rfl, rfl, by decide⟩
  · exact (c7_amended_discovery_characterization [⟨"B.MP4", true⟩]
      "B.MP4").2.mpr ⟨⟨"B.MP4", true⟩, by simp, rfl, by decide⟩

/-- C8: as stated, the claim fails on the code: an exception raised while
probing is swallowed inside `get_media_info`'s own bare `except` (line 87),
which returns the fallback duration 0, so it is never returned as a
False-first tuple — with the engine then exiting 0 the executor still
returns the success tuple.  Concrete input: ffprobe raising "No such file
or directory", silent stream, exit status 0, rename fine. -/
theorem c8_counterexample :
    (Evo2.run_job
        (Except.error "[Errno 2] No such file or directory: 'ffprobe'")
        none [] 0 none "a.mp4").result = Evo2.Result.ok "a.mp4" ∧
    Evo2.Result.firstElem (Evo2.Result.ok "a.mp4") = true := ⟨rfl, rfl⟩

/-- C8 (amended): the executor never propagates an exception to the
scheduler, but the probe is handled differently from the other steps.  An
exception raised while probing is swallowed by `get_media_info`'s bare
`except` and only degrades the duration to 0 — the call behaves exactly
like one whose probe reported duration 0, so the probe never touches the
Outcome.  Every exception raised while spawning, streaming output
(unparseable progress value), or moving the file — and the
`CalledProcessError` raised on a nonzero exit in evo2 — is caught and
returned as the failure tuple (first element `False`) whose last element
is that exception's message; with no such exception and exit 0 the success
tuple (first element `True`) is returned, and in the process variant a
nonzero exit returns the failure tuple with message "FFmpeg Error". -/
theorem c8_amended_executor_total (pm : String) (e2 : Evo2.Env)
    (ep : ProcessVar.Env) (f g : String) :
    (Evo2.run_job (Except.error pm) e2.spawnExc e2.lines e2.exitCode
        e2.renameExc f =
      Evo2.run_job (Except.ok 0) e2.spawnExc e2.lines e2.exitCode
        e2.renameExc f) ∧
    ((Evo2.make_720p e2 f).result = Evo2.Result.ok f ∨
      ∃ m, (Evo2.make_720p e2 f).result = Evo2.Result.err f m) ∧
    (∀ m, e2.spawnExc = some m →
      (Evo2.make_720p e2 f).result = Evo2.Result.err f m) ∧
    (∀ m, e2.spawnExc = none →
      (Evo2.streamLoop e2.probeDuration e2.lines).2 = some m →
      (Evo2.make_720p e2 f).result = Evo2.Result.err f m) ∧
    (e2.spawnExc = none →
      (Evo2.streamLoop e2.probeDuration e2.lines).2 = none →
      e2.exitCode ≠ 0 →
      (Evo2.make_720p e2 f).result =
        Evo2.Result.err f (Evo2.cpeMsg e2.exitCode)) ∧
    (∀ m, e2.spawnExc = none →
      (Evo2.streamLoop e2.probeDuration e2.lines).2 = none →
      e2.exitCode = 0 → e2.renameExc = some m →
      (Evo2.make_720p e2 f).result = Evo2.Result.err f m) ∧
    (e2.spawnExc = none →
      (Evo2.streamLoop e2.probeDuration e2.lines).2 = none →
      e2.exitCode = 0 → e2.renameExc = none →
      (Evo2.make_720p e2 f).result = Evo2.Result.ok f) ∧
    (Evo2.Result.firstElem (Evo2.Result.ok f) = true ∧
      ∀ m, Evo2.Result.firstElem (Evo2.Result.err f m) = false) ∧
    ((ProcessVar.make_720p ep g).result = ProcessVar.Result.ok g ∨
      ∃ m, (ProcessVar.make_720p ep g).result = ProcessVar.Result.err g m) ∧
    (∀ m, ep.spawnExc = some m →
      (ProcessVar.make_720p ep g).result = ProcessVar.Result.err g m) ∧
    (ep.spawnExc = none → ep.exitCode ≠ 0 →
      (ProcessVar.make_720p ep g).result =
        ProcessVar.Result.err g "FFmpeg Error") ∧
    (∀ m, ep.spawnExc = none → ep.exitCode = 0 → ep.renameExc = some m →
      (ProcessVar.make_720p ep g).result = ProcessVar.Result.err g m) ∧
    (ep.spawnExc = none → ep.exitCode = 0 → ep.renameExc = none →
      (ProcessVar.make_720p ep g).result = ProcessVar.Result.ok g) := by
  rw [evo2_result_spec, processvar_result_spec]
  refine ⟨rfl, ?_, ?_, ?_, ?_, ?_, ?_, ⟨rfl, fun m => rfl⟩, ?_, ?_, ?_, ?_, ?_⟩
  · cases e2.spawnExc with
    | some m => exact Or.inr ⟨m, rfl⟩
    | none =>
      cases (Evo2.streamLoop e2.probeDuration e2.lines).2 with
      | some m => exact Or.inr ⟨m, rfl⟩
      | none =>
        by_cases hz : e2.exitCode ≠ 0
        · rw [if_pos hz]
          exact Or.inr ⟨_, rfl⟩
        · rw [if_neg hz]
          cases e2.renameExc with
          | some m => exact Or.inr ⟨m, rfl⟩
          | none => exact Or.inl rfl
  · intro m h; rw [h]
  · intro m h1 h2; rw [h1, h2]
  · intro h1 h2 h3; rw [h1, h2]; simp [h3]
  · intro m h1 h2 h3 h4; rw [h1, h2, h4]; simp [h3]
  · intro h1 h2 h3 h4; rw [h1, h2, h4]; simp [h3]
  · cases ep.spawnExc with
    | some m => exact Or.inr ⟨m, rfl⟩
    | none =>
      by_cases hz : ep.exitCode = 0
      · rw [if_pos hz]
        cases ep.renameExc with
        | some m => exact Or.inr ⟨m, rfl⟩
        | none => exact Or.inl rfl
      · rw [if_neg hz]
        exact Or.inr ⟨_, rfl⟩
  · intro m h; rw [h]
  · intro h1 h2; rw [h1]; simp [h2]
  · intro m h1 h2 h3; rw [h1, h3]; simp [h2]
  · intro h1 h2 h3; rw [h1, h3]; simp [h2]

theorem c8_amended_witness :
    Evo2.run_job (Except.error "[Errno 2] No such file or directory: 'ffprobe'")
        none [] 0 none "a.mp4" =
      Evo2.run_job (Except.ok 0) none [] 0 none "a.mp4" ∧
    (Evo2.make_720p ⟨10, some "[Errno 2] No such file or directory: 'ffmpeg'",
        [], 0, none⟩ "a.mp4").result =
      Evo2.Result.err "a.mp4" "[Errno 2] No such file or directory: 'ffmpeg'" ∧
    (ProcessVar.make_720p ⟨none, [], 0, none⟩ "b.mp4").result =
      ProcessVar.Result.ok "b.mp4" := by
  refine ⟨?_, ?_, ?_⟩
  · exact (c8_amended_executor_total
      "[Errno 2] No such file or directory: 'ffprobe'"
      ⟨10, none, [], 0, none⟩ ⟨none, [], 0, none⟩ "a.mp4" "b.mp4").1
  · exact (c8_amended_executor_total
      "[Errno 2] No such file or directory: 'ffprobe'"
      ⟨10, some "[Errno 2] No such file or directory: 'ffmpeg'", [], 0, none⟩
      ⟨none, [], 0, none⟩ "a.mp4" "b.mp4").2.2.1 _ rfl
  · exact (c8_amended_executor_total
      "[Errno 2] No such file or directory: 'ffprobe'"
      ⟨10, none, [], 0, none⟩ ⟨none, [], 0, none⟩ "a.mp4"
      "b.mp4").2.2.2.2.2.2.2.2.2.2.2.2 rfl rfl rfl

/-- C9 (confirmed): disposition preserves the file name.  In the base
variant the success branch moves the source to
`os.path.join("done", basename(input_file))`, and in the cpu2 variant to
`os.path.join(done_folder, basename(input_path))`; two jobs with distinct
source basenames therefore always get distinct `done` destinations. -/
theorem c9_done_preserves_basename (f g d : String) :
    HgBase.donePath f = "done/" ++ pyBasename f ∧
    Cpu2.doneTarget d f = (d ++ "/") ++ pyBasename f ∧
    (pyBasename f ≠ pyBasename g →
      HgBase.donePath f ≠ HgBase.donePath g ∧
      Cpu2.doneTarget d f ≠ Cpu2.doneTarget d g) := by
  refine ⟨rfl, rfl, ?_⟩
  intro hne
  constructor
  · intro h
    exact hne (string_append_left_cancel "done/" _ _ h)
  · intro h
    exact hne (string_append_left_cancel (d ++ "/") _ _ h)

theorem c9_witness :
    HgBase.donePath "a.mp4" ≠ HgBase.donePath "b.mp4" ∧
    Cpu2.doneTarget "./done" "a.mp4" ≠ Cpu2.doneTarget "./done" "b.mp4" := by
  exact (c9_done_preserves_basename "a.mp4" "b.mp4" "./done").2.2 (by decide)

/-- C10 (confirmed): in the elapsed-time-heuristic executor
(`hg_convert_movie_to_720p_process.py`), every progress value written
while the engine process is still running is `min(0.99, elapsed/10)` and
hence at most 0.99, and a stored value of 1.0 can only be the terminal
write made after the poll loop has seen the process exit. -/
theorem c10_running_progress_below_terminal (env : ProcessVar.Env)
    (f : String) (u : ProcessVar.Update)
    (hu : u ∈ (ProcessVar.make_720p env f).updates) :
    (u.phase = ProcessVar.Phase.running → u.value ≤ 99 / 100) ∧
    (u.value = 1 → u.phase = ProcessVar.Phase.terminal) := by
  rw [processvar_updates_spec] at hu
  rcases hsp : env.spawnExc with _ | m
  · rw [hsp] at hu
    simp only [List.mem_append, List.mem_map, List.mem_singleton] at hu
    rcases hu with ⟨elapsed, _, rfl⟩ | rfl
    · constructor
      · intro _
        exact min_le_left _ _
      · intro hv
        exfalso
        have hv' : min ((99 : ℚ) / 100) (elapsed / 10) = 1 := hv
        have hle : min ((99 : ℚ) / 100) (elapsed / 10) ≤ 99 / 100 :=
          min_le_left _ _
        rw [hv'] at hle
        norm_num at hle
    · constructor
      · intro h
        simp at h
      · intro _
        rfl
  · rw [hsp] at hu
    simp at hu

theorem c10_witness :
    ((ProcessVar.Update.mk ProcessVar.Phase.running
        (min (99 / 100) (2 / 10))).phase = ProcessVar.Phase.running →
      (ProcessVar.Update.mk ProcessVar.Phase.running
        (min (99 / 100) (2 / 10))).value ≤ 99 / 100) ∧
    ((ProcessVar.Update.mk ProcessVar.Phase.running
        (min (99 / 100) (2 / 10))).value = 1 →
      (ProcessVar.Update.mk ProcessVar.Phase.running
        (min (99 / 100) (2 / 10))).phase = ProcessVar.Phase.terminal) := by
  exact c10_running_progress_below_terminal ⟨none, [2], 0, none⟩ "a.mp4"
    (ProcessVar.Update.mk ProcessVar.Phase.running (min (99 / 100) (2 / 10)))
    (by rw [processvar_updates_spec]; simp)
